import Mathlib

/-!
Verification of the Arduino_Course repository sketches.

The repository contains three C sketch files:
  * RC CAR CODES.c with four sketches sharing a differential-drive actuator
    (direction test, Bluetooth remote, line follower, obstacle avoider);
  * a parking-buzzer sketch using an ultrasonic sensor;
  * an LED/LCD push-button state-machine sketch.

Pins are modelled as fields of explicit state records; each C function that
writes pins becomes a state transformer.  Machine integers (C long, int) are
modelled as Nat or Int; the double constant 0.0343 is modelled as the exact
rational 343/10000 and C truncation of a nonnegative value to long as Nat
floor division.
-/

namespace ArduinoCourse

/-- The discrete movement command of the specification data model. -/
inductive MovementCommand where
  | Forward
  | Backward
  | Left
  | Right
  | Stop
deriving DecidableEq, Repr

/-- MotorOutput: the four direction pins IN1 (left forward), IN2 (left
backward), IN3 (right forward), IN4 (right backward) and the two PWM speed
pins speedL (pin 10) and speedR (pin 5) of the motor driver. -/
structure MotorOutput where
  in1 : Bool
  in2 : Bool
  in3 : Bool
  in4 : Bool
  speedL : Nat
  speedR : Nat
deriving DecidableEq, Repr

/-- All output pins are LOW after reset, before any actuator call. -/
def initOutput : MotorOutput :=
  { in1 := false, in2 := false, in3 := false, in4 := false,
    speedL := 0, speedR := 0 }

namespace Actuator

/-- void forword() of RC CAR CODES.c: digitalWrite(IN1,HIGH);
digitalWrite(IN2,LOW); digitalWrite(IN3,HIGH); digitalWrite(IN4,LOW);
analogWrite(speedL,150); analogWrite(speedR,150).  The function body is
textually identical in all four sketches of the file. -/
def forword (s : MotorOutput) : MotorOutput :=
  { s with in1 := true, in2 := false, in3 := true, in4 := false,
           speedL := 150, speedR := 150 }

/-- void backword() of RC CAR CODES.c: digitalWrite(IN1,LOW);
digitalWrite(IN2,HIGH); digitalWrite(IN3,LOW); digitalWrite(IN4,HIGH);
analogWrite(speedL,150); analogWrite(speedR,150).  Identical in all four
sketches of the file. -/
def backword (s : MotorOutput) : MotorOutput :=
  { s with in1 := false, in2 := true, in3 := false, in4 := true,
           speedL := 150, speedR := 150 }

/-- void left() of RC CAR CODES.c: digitalWrite(IN1,LOW);
digitalWrite(IN2,LOW); digitalWrite(IN3,HIGH); digitalWrite(IN4,LOW);
analogWrite(speedL,0); analogWrite(speedR,150).  Identical in all four
sketches of the file. -/
def left (s : MotorOutput) : MotorOutput :=
  { s with in1 := false, in2 := false, in3 := true, in4 := false,
           speedL := 0, speedR := 150 }

/-- void right() of RC CAR CODES.c: digitalWrite(IN1,HIGH);
digitalWrite(IN2,LOW); digitalWrite(IN3,LOW); digitalWrite(IN4,LOW);
analogWrite(speedL,150); analogWrite(speedR,0).  Identical in all four
sketches of the file. -/
def right (s : MotorOutput) : MotorOutput :=
  { s with in1 := true, in2 := false, in3 := false, in4 := false,
           speedL := 150, speedR := 0 }

/-- void stopp() as implemented in the direction-test, Bluetooth and
line-follower sketches of RC CAR CODES.c: digitalWrite(IN1,LOW);
digitalWrite(IN2,LOW); digitalWrite(IN3,LOW); digitalWrite(IN4,LOW);
analogWrite(speedL,0); analogWrite(speedR,0). -/
def stopp (s : MotorOutput) : MotorOutput :=
  { s with in1 := false, in2 := false, in3 := false, in4 := false,
           speedL := 0, speedR := 0 }

end Actuator

namespace Obstacle

/-- void stopp() of the obstacle-avoiding sketch in RC CAR CODES.c:
digitalWrite(speedL, LOW); digitalWrite(speedR, LOW).  It writes only the
two speed pins and leaves the four direction pins untouched. -/
def stopp (s : MotorOutput) : MotorOutput :=
  { s with speedL := 0, speedR := 0 }

/-- The distance assignment of void Ultrasonic() in the obstacle-avoiding
sketch: distance = (duration/2) * 0.0343, where duration and distance are
C long variables and duration is the pulseIn result (nonnegative).
duration/2 is C integer division; the double product is truncated toward
zero by the assignment to long; with 0.0343 modelled as the exact rational
343/10000 both steps are Nat floor division. -/
def distanceCalc (duration : Nat) : Nat :=
  duration / 2 * 343 / 10000

end Obstacle

/-- The command-to-output contract table of spec section 4.1, written from
the words of the spec: each row gives the left direction pair, the right
direction pair, and the two speed magnitudes (cfgL and cfgR are the
configured speeds of the sketch). -/
def specActuatorTable (c : MovementCommand) (cfgL cfgR : Nat) : MotorOutput :=
  match c with
  | .Forward  => { in1 := true,  in2 := false, in3 := true,  in4 := false,
                   speedL := cfgL, speedR := cfgR }
  | .Backward => { in1 := false, in2 := true,  in3 := false, in4 := true,
                   speedL := cfgL, speedR := cfgR }
  | .Left     => { in1 := false, in2 := false, in3 := true,  in4 := false,
                   speedL := 0, speedR := cfgR }
  | .Right    => { in1 := true,  in2 := false, in3 := false, in4 := false,
                   speedL := cfgL, speedR := 0 }
  | .Stop     => { in1 := false, in2 := false, in3 := false, in4 := false,
                   speedL := 0, speedR := 0 }

/-- Channel safety invariant of the spec data model: for each motor channel
the forward and backward direction signals are not both asserted. -/
def chanSafe (m : MotorOutput) : Prop :=
  ¬ (m.in1 = true ∧ m.in2 = true) ∧ ¬ (m.in3 = true ∧ m.in4 = true)

instance (m : MotorOutput) : Decidable (chanSafe m) := by
  unfold chanSafe
  infer_instance

/-- The distance formula of spec sections 4.2 and 8, written from the words
of the spec: distance = (D/2) * 0.0343 as an exact real (rational) value,
with no integer truncation. -/
def specDistance (d : Nat) : ℚ :=
  (d : ℚ) / 2 * (343 / 10000)

/-- One observable event of a control-loop body: an actuator command issued,
or a blocking delay in milliseconds or microseconds. -/
inductive LoopEvent where
  | cmd (c : MovementCommand)
  | delayMs (ms : Nat)
  | delayUs (us : Nat)
deriving DecidableEq, Repr

namespace Obstacle

/-- The decision part of void loop() in the obstacle-avoiding sketch, as the
sequence of actuator commands and delays it issues for a given value of the
long global distance: if(distance<20){ stopp(); delay(250); backword();
delay(500); right(); delay(1000); } else { forword(); }. -/
def loopBody (distance : Int) : List LoopEvent :=
  if distance < 20 then
    [.cmd .Stop, .delayMs 250, .cmd .Backward, .delayMs 500,
     .cmd .Right, .delayMs 1000]
  else
    [.cmd .Forward]

end Obstacle

namespace LineFollower

/-- The branch chain of void loop() in the line-follower sketch, given the
two int sensor readings sl and sr: four if / else-if branches, each calling
one actuator function; a pair matching no branch calls nothing (none). -/
def loopStep (sl sr : Nat) : Option MovementCommand :=
  if sl = 0 ∧ sr = 0 then some .Forward
  else if sl = 0 ∧ sr = 1 then some .Right
  else if sl = 1 ∧ sr = 0 then some .Left
  else if sl = 1 ∧ sr = 1 then some .Stop
  else none

end LineFollower

/-- The line-follower table of spec section 4.3, written from the words of
the spec: 00 to Forward, 01 to Right, 10 to Left, 11 to Stop. -/
def specLineTable (sl sr : Nat) : MovementCommand :=
  if sl = 0 then (if sr = 0 then .Forward else .Right)
  else (if sr = 0 then .Left else .Stop)

namespace Bluetooth

/-- The switch(Reading) dispatch of void loop() in the Bluetooth-controlled
sketch: case F forword, case B backword, case R right, case L left,
case S stopp; a byte matching no case falls through the switch and performs
no actuator write. -/
def dispatch (c : Char) (s : MotorOutput) : MotorOutput :=
  match c with
  | 'F' => Actuator.forword s
  | 'B' => Actuator.backword s
  | 'R' => Actuator.right s
  | 'L' => Actuator.left s
  | 'S' => Actuator.stopp s
  | _ => s

/-- One iteration of void loop() in the Bluetooth-controlled sketch: if a
byte is available (some c) it is read and dispatched, otherwise the
iteration leaves the outputs unchanged. -/
def step (s : MotorOutput) (input : Option Char) : MotorOutput :=
  match input with
  | some c => dispatch c s
  | none => s

end Bluetooth

namespace Parking

/-- The distance assignment of void loop() in the parking-buzzer sketch:
distance = duration / 2*0.0343, with long duration and distance; by C
precedence this is (duration/2) * 0.0343 — long division by 2, a double
product, and truncation back to long on assignment, modelled with 0.0343 as
the exact rational 343/10000 so both steps are Nat floor division. -/
def distanceCalc (duration : Nat) : Nat :=
  duration / 2 * 343 / 10000

/-- One observable event of the parking-buzzer loop body: the distance
value printed to serial, a buzzer pin write, or a blocking delay. -/
inductive Event where
  | printed (d : Nat)
  | buzzer (level : Bool)
  | delayMs (ms : Nat)
  | delayUs (us : Nat)
deriving DecidableEq, Repr

/-- The body of void loop() in the parking-buzzer sketch after the trigger
handshake stores the pulseIn result in duration: Serial.println(distance);
delay(5); digitalWrite(Buzzer,1); delayMicroseconds(duration/2);
digitalWrite(Buzzer,0); delayMicroseconds(duration/2). -/
def loopBody (duration : Nat) : List Event :=
  [.printed (distanceCalc duration), .delayMs 5,
   .buzzer true, .delayUs (duration / 2),
   .buzzer false, .delayUs (duration / 2)]

end Parking

namespace LedLcd

/-- The state touched by one iteration of the LED/LCD sketch loop: the int
global counter, the two LED pins, and the last text sent to the LCD (none
after lcd_1.clear()). -/
structure State where
  counter : Nat
  red : Bool
  green : Bool
  lcdText : Option String
deriving DecidableEq, Repr

/-- State at reset: counter = 0, both LED pins LOW, nothing printed. -/
def init : State :=
  { counter := 0, red := false, green := false, lcdText := none }

/-- One iteration of void loop() of the LED/LCD sketch, given the digital
button reading: if (button_Reading == 1 && counter == 0) turn the red LED
on, increment counter, print Red led, turn the green LED off; else if
(button_Reading == 1 && counter == 1) red off, green on, print Green led,
counter = 0; else both LEDs off and lcd_1.clear(). -/
def loopStep (button_Reading : Nat) (s : State) : State :=
  if button_Reading = 1 ∧ s.counter = 0 then
    { counter := s.counter + 1, red := true, green := false,
      lcdText := some "Red led " }
  else if button_Reading = 1 ∧ s.counter = 1 then
    { counter := 0, red := false, green := true,
      lcdText := some "Green led " }
  else
    { s with red := false, green := false, lcdText := none }

end LedLcd

/-- Claim C1, counterexample: in the obstacle-avoiding sketch, calling stopp
after forword leaves IN1 HIGH, so its output differs from the Stop row of
the section 4.1 table, which requires both direction pairs to be (0,0). -/
theorem C1_counterexample :
    Obstacle.stopp (Actuator.forword initOutput) ≠
      specActuatorTable MovementCommand.Stop 150 150 ∧
    (Obstacle.stopp (Actuator.forword initOutput)).in1 = true ∧
    (specActuatorTable MovementCommand.Stop 150 150).in1 = false := by
  refine ⟨?_, rfl, rfl⟩
  decide

/-- Claim C1 (amended): from every prior output state, the actuator
functions of the direction-test, Bluetooth and line-follower sketches
(forword, backword, left, right, stopp) produce exactly the section 4.1
table rows at configured speed 150; in the obstacle-avoiding sketch,
forword, backword, left and right also match the table, but stopp only
drives both speed magnitudes to 0 and leaves the four direction signals
unchanged. -/
theorem C1_actuator_matches_table (s : MotorOutput) :
    Actuator.forword s = specActuatorTable .Forward 150 150 ∧
    Actuator.backword s = specActuatorTable .Backward 150 150 ∧
    Actuator.left s = specActuatorTable .Left 150 150 ∧
    Actuator.right s = specActuatorTable .Right 150 150 ∧
    Actuator.stopp s = specActuatorTable .Stop 150 150 ∧
    (Obstacle.stopp s).speedL = 0 ∧ (Obstacle.stopp s).speedR = 0 ∧
    (Obstacle.stopp s).in1 = s.in1 ∧ (Obstacle.stopp s).in2 = s.in2 ∧
    (Obstacle.stopp s).in3 = s.in3 ∧ (Obstacle.stopp s).in4 = s.in4 := by
  refine ⟨rfl, rfl, rfl, rfl, rfl, rfl, rfl, rfl, rfl, rfl, rfl⟩

/-- Claim C2: starting from any output state in which no channel has both
direction signals asserted (the reset state included), every actuator
function of every sketch, the obstacle-avoiding stopp included, yields a
state in which no channel has both direction signals asserted. -/
theorem C2_channel_invariant (s : MotorOutput) (h : chanSafe s) :
    chanSafe initOutput ∧
    chanSafe (Actuator.forword s) ∧ chanSafe (Actuator.backword s) ∧
    chanSafe (Actuator.left s) ∧ chanSafe (Actuator.right s) ∧
    chanSafe (Actuator.stopp s) ∧ chanSafe (Obstacle.stopp s) := by
  refine ⟨by decide, ?_, ?_, ?_, ?_, ?_, ?_⟩ <;>
    simp [chanSafe, Actuator.forword, Actuator.backword, Actuator.left,
          Actuator.right, Actuator.stopp, Obstacle.stopp] at h ⊢
  exact h

/-- Claim C2 witness: the invariant-preservation theorem applied at the
reset output state. -/
theorem C2_witness :
    chanSafe initOutput ∧
    (chanSafe initOutput ∧
      chanSafe (Actuator.forword initOutput) ∧
      chanSafe (Actuator.backword initOutput) ∧
      chanSafe (Actuator.left initOutput) ∧
      chanSafe (Actuator.right initOutput) ∧
      chanSafe (Actuator.stopp initOutput) ∧
      chanSafe (Obstacle.stopp initOutput)) :=
  ⟨by decide, C2_channel_invariant initOutput (by decide)⟩

/-- Claim C3, counterexample: for echo duration D = 1000 µs the code
computes distance 17 while (D/2) * 0.0343 = 17.15; the difference 0.15 cm
is far beyond floating-point tolerance. -/
theorem C3_counterexample :
    Obstacle.distanceCalc 1000 = 17 ∧
    specDistance 1000 = 343 / 20 ∧
    specDistance 1000 - (Obstacle.distanceCalc 1000 : ℚ) = 3 / 20 ∧
    (1 : ℚ) / 10 < 3 / 20 := by
  refine ⟨rfl, ?_, ?_, by norm_num⟩ <;>
    norm_num [specDistance, Obstacle.distanceCalc]

/-- Claim C3 (amended): the computed distance is the integer truncation of
(D div 2) * 0.0343 with D div 2 integer division, hence at most the exact
value (D/2) * 0.0343 of the spec formula and within 1 + 0.0343/2 cm below
it, rather than equal to it within floating-point tolerance. -/
theorem C3_distance_truncated (d : Nat) :
    (Obstacle.distanceCalc d : ℚ) ≤ specDistance d ∧
    specDistance d < (Obstacle.distanceCalc d : ℚ) + 1 + 343 / 20000 := by
  have h2 : (d : ℚ) ≤ 2 * ((d / 2 : Nat) : ℚ) + 1 := by
    have h : d ≤ 2 * (d / 2) + 1 := by omega
    exact_mod_cast h
  have h2' : 2 * ((d / 2 : Nat) : ℚ) ≤ (d : ℚ) := by
    have h : 2 * (d / 2) ≤ d := by omega
    exact_mod_cast h
  have hlow : ((d / 2 * 343 / 10000 : Nat) : ℚ) * 10000 ≤
      ((d / 2 : Nat) : ℚ) * 343 := by
    have h : d / 2 * 343 / 10000 * 10000 ≤ d / 2 * 343 :=
      Nat.div_mul_le_self _ _
    exact_mod_cast h
  have hhigh : ((d / 2 : Nat) : ℚ) * 343 <
      (((d / 2 * 343 / 10000 : Nat) : ℚ) + 1) * 10000 := by
    have h : d / 2 * 343 < (d / 2 * 343 / 10000 + 1) * 10000 := by omega
    exact_mod_cast h
  constructor
  · show ((d / 2 * 343 / 10000 : Nat) : ℚ) ≤ (d : ℚ) / 2 * (343 / 10000)
    nlinarith
  · show (d : ℚ) / 2 * (343 / 10000) <
      ((d / 2 * 343 / 10000 : Nat) : ℚ) + 1 + 343 / 20000
    nlinarith

/-- Claim C4: the Ultrasonic routine has no sentinel result — its output is
the single long variable distance, computed unconditionally from whatever
pulseIn stores in duration; a duration of 0 (what the Arduino library
returns when its implicit wait expires) yields distance 0, which is exactly
the distance computed for a genuine short echo such as D = 58 µs, so no
"no-reading" result is distinguishable. -/
theorem C4_no_sentinel :
    Obstacle.distanceCalc 0 = 0 ∧
    Obstacle.distanceCalc 58 = 0 ∧
    (0 : Nat) ≠ 58 := by
  refine ⟨rfl, rfl, by decide⟩

/-- Claim C5: every distance strictly below 20 makes the obstacle-avoiding
loop issue exactly Stop held 250 ms, Backward held 500 ms, Right held
1000 ms, and every distance of 20 or more makes it issue Forward alone;
the boundary at exactly 20 falls in the Forward branch. -/
theorem C5_obstacle_threshold (d : Int) :
    (d < 20 → Obstacle.loopBody d =
      [.cmd .Stop, .delayMs 250, .cmd .Backward, .delayMs 500,
       .cmd .Right, .delayMs 1000]) ∧
    (20 ≤ d → Obstacle.loopBody d = [.cmd .Forward]) := by
  constructor <;> intro h
  · simp [Obstacle.loopBody, h]
  · simp [Obstacle.loopBody, show ¬ (d < 20) by omega]

/-- Claim C5 witness: the threshold theorem applied at distance 19 (the
avoidance sequence fires) and at the boundary distance 20 (Forward). -/
theorem C5_witness :
    ((19 : Int) < 20 ∧ Obstacle.loopBody 19 =
      [.cmd .Stop, .delayMs 250, .cmd .Backward, .delayMs 500,
       .cmd .Right, .delayMs 1000]) ∧
    ((20 : Int) ≤ 20 ∧ Obstacle.loopBody 20 = [.cmd .Forward]) :=
  ⟨⟨by decide, (C5_obstacle_threshold 19).1 (by decide)⟩,
   ⟨by decide, (C5_obstacle_threshold 20).2 (by decide)⟩⟩

/-- Claim C6: on the binary sensor domain the line-follower loop issues
exactly the spec table command — (0,0) Forward, (0,1) Right, (1,0) Left,
(1,1) Stop — as a pure function of the current pair, and some command is
always issued, so no other outcome is reachable. -/
theorem C6_line_follower (sl sr : Nat) (hl : sl ≤ 1) (hr : sr ≤ 1) :
    LineFollower.loopStep sl sr = some (specLineTable sl sr) := by
  interval_cases sl <;> interval_cases sr <;> decide

/-- Claim C6 witness: the line-follower theorem applied at the four binary
sensor pairs. -/
theorem C6_witness :
    LineFollower.loopStep 0 0 = some (specLineTable 0 0) ∧
    LineFollower.loopStep 0 1 = some (specLineTable 0 1) ∧
    LineFollower.loopStep 1 0 = some (specLineTable 1 0) ∧
    LineFollower.loopStep 1 1 = some (specLineTable 1 1) :=
  ⟨C6_line_follower 0 0 (by decide) (by decide),
   C6_line_follower 0 1 (by decide) (by decide),
   C6_line_follower 1 0 (by decide) (by decide),
   C6_line_follower 1 1 (by decide) (by decide)⟩

/-- Claim C7: a byte outside F, B, R, L, S leaves the outputs of the
Bluetooth-controlled sketch unchanged from any state, and the input
sequence F, Z, S makes the actuator observe the Forward row, then no
change, then the Stop row of the section 4.1 table. -/
theorem C7_bluetooth_dispatch (s : MotorOutput) (c : Char)
    (h : ¬ (c = 'F' ∨ c = 'B' ∨ c = 'R' ∨ c = 'L' ∨ c = 'S')) :
    Bluetooth.step s (some c) = s ∧
    Bluetooth.step initOutput (some 'F') =
      specActuatorTable .Forward 150 150 ∧
    Bluetooth.step (Bluetooth.step initOutput (some 'F')) (some 'Z') =
      Bluetooth.step initOutput (some 'F') ∧
    Bluetooth.step
        (Bluetooth.step (Bluetooth.step initOutput (some 'F')) (some 'Z'))
        (some 'S') =
      specActuatorTable .Stop 150 150 := by
  refine ⟨?_, by decide, by decide, by decide⟩
  show Bluetooth.dispatch c s = s
  unfold Bluetooth.dispatch
  push_neg at h
  obtain ⟨hF, hB, hR, hL, hS⟩ := h
  split <;> simp_all

/-- Claim C7 witness: the dispatch theorem applied in the reset state to the
unrecognized byte Z. -/
theorem C7_witness :
    ¬ (('Z' : Char) = 'F' ∨ ('Z' : Char) = 'B' ∨ ('Z' : Char) = 'R' ∨
        ('Z' : Char) = 'L' ∨ ('Z' : Char) = 'S') ∧
    Bluetooth.step initOutput (some 'Z') = initOutput :=
  ⟨by decide, (C7_bluetooth_dispatch initOutput 'Z' (by decide)).1⟩

/-- Claim C8: from every prior output state, both implementations of stopp
— the full one shared by the direction-test, Bluetooth and line-follower
sketches and the speed-pin-only one of the obstacle-avoiding sketch —
drive both speed magnitudes to 0. -/
theorem C8_stop_zeroes_speeds (s : MotorOutput) :
    (Actuator.stopp s).speedL = 0 ∧ (Actuator.stopp s).speedR = 0 ∧
    (Obstacle.stopp s).speedL = 0 ∧ (Obstacle.stopp s).speedR = 0 :=
  ⟨rfl, rfl, rfl, rfl⟩

/-- Claim C9: each parking-buzzer iteration prints the derived distance,
then drives the buzzer high for duration/2 µs and low for duration/2 µs,
both taken from the raw measured duration; and the printed distance does
not determine the buzzer timing — durations 0 and 58 print the same
distance yet give different buzzer half-periods. -/
theorem C9_parking_buzzer (duration : Nat) :
    Parking.loopBody duration =
      [.printed (Parking.distanceCalc duration), .delayMs 5,
       .buzzer true, .delayUs (duration / 2),
       .buzzer false, .delayUs (duration / 2)] ∧
    Parking.distanceCalc 0 = Parking.distanceCalc 58 ∧
    (0 : Nat) / 2 ≠ 58 / 2 :=
  ⟨rfl, rfl, by decide⟩

/-- Claim C10, counterexample: press the button once from reset (the red
LED goes on, entering the RedActive state with counter = 1), then run one
iteration with the button reading 0: the loop drives both LEDs off, so it
is not true that exactly one LED is on at every iteration in each state. -/
theorem C10_counterexample :
    (LedLcd.loopStep 1 LedLcd.init).red = true ∧
    (LedLcd.loopStep 1 LedLcd.init).counter = 1 ∧
    (LedLcd.loopStep 0 (LedLcd.loopStep 1 LedLcd.init)).red = false ∧
    (LedLcd.loopStep 0 (LedLcd.loopStep 1 LedLcd.init)).green = false := by
  refine ⟨rfl, rfl, rfl, rfl⟩

/-- Claim C10 (amended): in each iteration whose button reading is 1,
exactly one LED is driven on — the red LED on and the green off on the
transition out of counter = 0, the green on and the red off out of
counter = 1; in every iteration whose button reading is not 1, both LEDs
are driven off. -/
theorem C10_led_states (s : LedLcd.State) (b : Nat) :
    (b = 1 → s.counter = 0 →
      (LedLcd.loopStep b s).red = true ∧
      (LedLcd.loopStep b s).green = false) ∧
    (b = 1 → s.counter = 1 →
      (LedLcd.loopStep b s).red = false ∧
      (LedLcd.loopStep b s).green = true) ∧
    (b ≠ 1 →
      (LedLcd.loopStep b s).red = false ∧
      (LedLcd.loopStep b s).green = false) := by
  refine ⟨fun hb hc => ?_, fun hb hc => ?_, fun hb => ?_⟩
  · simp [LedLcd.loopStep, hb, hc]
  · simp [LedLcd.loopStep, hb, hc]
  · simp [LedLcd.loopStep, hb]

/-- Claim C10 witness: the amended theorem applied at reset with a pressed
button and at reset with the button released. -/
theorem C10_witness :
    ((1 : Nat) = 1 ∧ LedLcd.init.counter = 0 ∧
      (LedLcd.loopStep 1 LedLcd.init).red = true ∧
      (LedLcd.loopStep 1 LedLcd.init).green = false) ∧
    ((0 : Nat) ≠ 1 ∧
      (LedLcd.loopStep 0 LedLcd.init).red = false ∧
      (LedLcd.loopStep 0 LedLcd.init).green = false) :=
  ⟨⟨rfl, rfl, (C10_led_states LedLcd.init 1).1 rfl rfl⟩,
   ⟨by decide, (C10_led_states LedLcd.init 0).2.2 (by decide)⟩⟩

end ArduinoCourse
